import Mathlib

/-!
# Point Query Engine of the transform service — shallow embedding

This file embeds the point-query engine of the `transform_service`
repository (`app/query.py`, `app/config.py`, and the transport guards of
`app/main.py`) in Lean 4 and proves properties of it.

Modelling conventions:

* Python / numpy floating-point values are modelled as rationals (`ℚ`);
  a numpy scalar that may be NaN is modelled by the inductive `Value`
  (`Value.nan` or `Value.num q`).  NaN propagation through `/` and `+`
  is explicit in `Value.div4` and `Value.add`.
* An `[n,3]` numpy array of points is a `List (Vec3 ℚ)`; an `[n,w]`
  result array is a `List (List Value)`.
* A Python function that may raise is embedded as `Except PyError _`.
* The modules `process.py` and `datasource.py` are not part of the
  visible sources; the fetch routine `process.get_multiple_ids` is a
  parameter (`Fetch`) of the embedded `query_points`, and the datasource
  metadata (`datasource.get_datasource_info`, `get_datastore`,
  `get_datastore_downsample`) are explicit arguments (`DatasourceInfo`,
  `Datastore`, the `downsample` vector).
-/

namespace TransformService

/-- A 3-component vector (one row of an `[n,3]` numpy array). -/
structure Vec3 (α : Type) where
  x : α
  y : α
  z : α
deriving DecidableEq, Repr

instance {α : Type} [Inhabited α] : Inhabited (Vec3 α) := ⟨⟨default, default, default⟩⟩

/-- A numpy scalar that is either NaN or an ordinary number
(rationals stand in for floating point). -/
inductive Value
  | nan
  | num (val : ℚ)
deriving DecidableEq, Repr

instance : Inhabited Value := ⟨Value.nan⟩

/-- Division `v / 4.0` with numpy's NaN propagation. -/
def Value.div4 : Value → Value
  | Value.nan => Value.nan
  | Value.num q => Value.num (q / 4)

/-- Addition `a + b` with numpy's NaN propagation. -/
def Value.add : Value → Value → Value
  | Value.nan, _ => Value.nan
  | _, Value.nan => Value.nan
  | Value.num a, Value.num b => Value.num (a + b)

/-- The element datatypes that appear in dataset descriptors
(`config.DATASOURCES[..]["dtype"]`). -/
inductive DType
  | float32
  | float64
  | int16
  | uint32
  | uint64
deriving DecidableEq, Repr

/-- Test `np.issubdtype(np.dtype(d), np.integer)`. -/
def DType.isInteger : DType → Bool
  | DType.float32 => false
  | DType.float64 => false
  | DType.int16 => true
  | DType.uint32 => true
  | DType.uint64 => true

/-- The fields of a `config.DATASOURCES` entry that the engine reads
(`datasource.get_datasource_info(dataset)`). -/
structure DatasourceInfo where
  type : String
  scales : List ℤ
  voxel_size : Vec3 ℚ
  services : List String
  dtype : DType
  width : ℕ

/-- The parts of an opened tensorstore handle (`n5`) that `query_points`
reads: chunk geometry from `n5.spec().to_json()` and the inclusive
domain bounds (first three axes of `n5.domain`). -/
structure Datastore where
  /-- `spec().to_json()["scale_metadata"]["chunk_size"]` (neuroglancer). -/
  scaleMetadataChunkSize : List ℕ
  /-- `spec().to_json()["metadata"]["chunks"]` (zarr); the code slices `[0:3]`. -/
  metadataChunks : List ℕ
  /-- `n5.domain.inclusive_min[0:3]`. -/
  inclusiveMin : Vec3 ℤ
  /-- `n5.domain.inclusive_max[0:3]`. -/
  inclusiveMax : Vec3 ℤ

/-! ## `app/config.py` -/

/-- Constant `config.MaxWorkers = 16`. -/
def MaxWorkers : ℕ := 16

/-- Constant `config.MaxLocations = 10e9` (the Python float `10000000000.0`; the
length comparison against it is exact at this magnitude, so a natural
number models it). -/
def MaxLocations : ℕ := 10000000000

/-- Constant `config.CHUNK_MULTIPLIER = 1`. -/
def CHUNK_MULTIPLIER : ℕ := 1

/-! ## Errors -/

/-- The exceptions the embedded functions can raise. -/
inductive PyError
  /-- Python `UnboundLocalError`: a local variable read before assignment. -/
  | unboundLocal (name : String)
  /-- FastAPI `HTTPException(status_code, detail)`. -/
  | httpError (statusCode : ℕ) (detail : String)
deriving DecidableEq, Repr

/-- The detail string of the `HTTPException` raised by `map_points`. -/
def transformDetail : String := "This dataset does not provide transform services."

/-- The detail string of the `HTTPException` raised by the endpoint guards in
`main.py` (`"Max number of locations ({}) exceeded".format(config.MaxLocations)`
with `MaxLocations = 10e9`). -/
def maxLocationsDetail : String := "Max number of locations (10000000000.0) exceeded"

/-! ## `app/query.py` -/

/-- The chunk-size branch at the top of `query_points`: `blocksize` is
assigned only for the storage types `neuroglancer_precomputed`, `zarr`
and `zarr-nested`; for every other type the local variable stays
unassigned (`none`). -/
def blocksize (info : DatasourceInfo) (n5 : Datastore) : Option (List ℕ) :=
  if info.type = "neuroglancer_precomputed" then
    some (n5.scaleMetadataChunkSize.map (fun c => c * CHUNK_MULTIPLIER))
  else if info.type = "zarr" ∨ info.type = "zarr-nested" then
    some ((n5.metadataChunks.take 3).map (fun c => c * CHUNK_MULTIPLIER))
  else
    none

/-- numpy floating-point floor division `a // b`: the floor of the true
quotient, kept as a floating-point value (the grid-coordinate array is
`np.empty_like(locs)`, hence float). -/
def npFloorDiv (a b : ℚ) : ℚ := (⌊a / b⌋ : ℤ)

/-- Zip three equally long lists with a ternary function. -/
def zipWith3 {α β γ δ : Type} (f : α → β → γ → δ) :
    List α → List β → List γ → List δ
  | a :: as, b :: bs, c :: cs => f a b c :: zipWith3 f as bs cs
  | _, _, _ => []

/-- The coordinate-mapper block of `query_points`, column by column:
`query_points[:, k] = locs[:, k] // downsample[k]` for `k = 0, 1, 2`. -/
def gridCoords (locs : List (Vec3 ℚ)) (downsample : Vec3 ℚ) : List (Vec3 ℚ) :=
  zipWith3 Vec3.mk
    (locs.map fun p => npFloorDiv p.x downsample.x)
    (locs.map fun p => npFloorDiv p.y downsample.y)
    (locs.map fun p => npFloorDiv p.z downsample.z)

/-- One row of the `bad_points` mask:
`((query_points < n5.domain.inclusive_min[0:3]) |
  (query_points > n5.domain.inclusive_max[0:3])).any(axis=1)`. -/
def badPoint (n5 : Datastore) (q : Vec3 ℚ) : Bool :=
  (decide (q.x < (n5.inclusiveMin.x : ℚ)) || decide (q.x > (n5.inclusiveMax.x : ℚ))) ||
  (decide (q.y < (n5.inclusiveMin.y : ℚ)) || decide (q.y > (n5.inclusiveMax.y : ℚ))) ||
  (decide (q.z < (n5.inclusiveMin.z : ℚ)) || decide (q.z > (n5.inclusiveMax.z : ℚ)))

/-- The sentinel selection of `query_points`:
`error_value = np.NaN`, overwritten with `0` when
`np.issubdtype(np.dtype(info["dtype"]), np.integer)`. -/
def error_value (d : DType) : Value :=
  if d.isInteger then Value.num 0 else Value.nan

/-- The signature of `process.get_multiple_ids` as `query_points` calls it
(the module `process.py` is not among the visible sources, so the fetch
routine is a parameter): the masked grid points (`none` marks a row the
bounds check overwrote with NaN), the block size, the sentinel and the
dtype; it returns the `[n, width]` result buffer. -/
def Fetch : Type :=
  List (Option (Vec3 ℚ)) → List ℕ → Value → DType → List (List Value)

/-- Function `query_points(dataset, scale, locs)` of `app/query.py`.

The datasource lookups are the explicit arguments `info`, `n5` and
`downsample`; `fetch` stands for `process.get_multiple_ids`.  The
`blocksize` local is only read on the fetch path, so an unrecognized
storage type raises `UnboundLocalError` there and only there. -/
def query_points (fetch : Fetch) (info : DatasourceInfo) (n5 : Datastore)
    (downsample : Vec3 ℚ) (locs : List (Vec3 ℚ)) :
    Except PyError (List (List Value)) :=
  if (((gridCoords locs downsample).map (badPoint n5)).all fun b => b) then
    -- `np.full((query_points.shape[0], info["width"]), error_value, ...)`
    Except.ok (List.replicate locs.length
      (List.replicate info.width (error_value info.dtype)))
  else
    match blocksize info n5 with
    | none => Except.error (PyError.unboundLocal "blocksize")
    | some bs =>
        -- `query_points[bad_points] = np.NaN`: invalid rows reach the fetch masked.
        Except.ok (fetch
          (List.zipWith (fun q b => if b then none else some q)
            (gridCoords locs downsample)
            ((gridCoords locs downsample).map (badPoint n5)))
          bs (error_value info.dtype) info.dtype)

/-- One row of the structured result array of `map_points`
(`dtype=[("x","<f4"),("y","<f4"),("z","<f4"),("dx","<f4"),("dy","<f4")]`). -/
structure ResultRow where
  x : Value
  y : Value
  z : Value
  dx : Value
  dy : Value
deriving DecidableEq, Repr

instance : Inhabited ResultRow :=
  ⟨⟨Value.nan, Value.nan, Value.nan, Value.nan, Value.nan⟩⟩

/-- The per-row displacement decode of `map_points`:
`dx = field[1] / 4.0`, `dy = field[0] / 4.0`, `x = locs[0] + dx`,
`y = locs[1] + dy`, `z = locs[2]`.  (Field rows always have the
dataset's channel width, here ≥ 2; out-of-range access cannot occur
upstream, so `getD` carries an unused NaN default.) -/
def decodeRow (fieldRow : List Value) (p : Vec3 ℚ) : ResultRow :=
  let dx := (fieldRow.getD 1 Value.nan).div4
  let dy := (fieldRow.getD 0 Value.nan).div4
  { x := Value.add (Value.num p.x) dx
    y := Value.add (Value.num p.y) dy
    z := Value.num p.z
    dx := dx
    dy := dy }

/-- The result assembly of `map_points`: a structured array of
`locs.shape[0]` rows (`np.zeros(locs.shape[0], dtype=...)`), row `i`
filled from field row `i` and input point `i` by the column-wise
assignments. -/
def map_points_results (field : List (List Value)) (locs : List (Vec3 ℚ)) :
    List ResultRow :=
  (List.range locs.length).map fun i =>
    decodeRow (field.getD i []) (locs.getD i ⟨0, 0, 0⟩)

/-- Function `map_points(dataset, scale, locs)` of `app/query.py`: the
transform-service check, then `query_points`, then the displacement
decode. -/
def map_points (fetch : Fetch) (info : DatasourceInfo) (n5 : Datastore)
    (downsample : Vec3 ℚ) (locs : List (Vec3 ℚ)) :
    Except PyError (List ResultRow) :=
  if "transform" ∉ info.services then
    Except.error (PyError.httpError 400 transformDetail)
  else
    (query_points fetch info n5 downsample locs).map fun field =>
      map_points_results field locs

/-! ## `app/main.py` endpoint guards -/

/-- The `transform_values` endpoint
(`POST /transform/dataset/{dataset}/s/{scale}/values`): the
`MaxLocations` guard, then `map_points` on a worker thread. -/
def transform_values (fetch : Fetch) (info : DatasourceInfo) (n5 : Datastore)
    (downsample : Vec3 ℚ) (locations : List (Vec3 ℚ)) :
    Except PyError (List ResultRow) :=
  if locations.length > MaxLocations then
    Except.error (PyError.httpError 400 maxLocationsDetail)
  else
    map_points fetch info n5 downsample locations

/-- The `query_values_cloud_volume_server` endpoint
(`POST /query/dataset/{dataset}/s/{scale}/cloud_volume_server`): the
`MaxLocations` guard, then `query_points` and `data.flatten().tolist()`. -/
def query_values_cloud_volume_server (fetch : Fetch) (info : DatasourceInfo)
    (n5 : Datastore) (downsample : Vec3 ℚ) (locations : List (Vec3 ℚ)) :
    Except PyError (List Value) :=
  if locations.length > MaxLocations then
    Except.error (PyError.httpError 400 maxLocationsDetail)
  else
    (query_points fetch info n5 downsample locations).map fun d => d.flatten

/-- The `query_values_array` endpoint
(`POST /query/dataset/{dataset}/s/{scale}/values_array`): the column
lists are stacked into an `[n,3]` array
(`np.array([locs.x, locs.y, locs.z]).swapaxes(0, 1)`; numpy requires the
three columns to have equal length), then the `MaxLocations` guard, then
`query_points` and `data.swapaxes(0, 1)`.  The
`values_array_string_response` endpoint delegates to this one, so it
inherits the same guard. -/
def query_values_array (fetch : Fetch) (info : DatasourceInfo) (n5 : Datastore)
    (downsample : Vec3 ℚ) (xs ys zs : List ℚ) :
    Except PyError (List (List Value)) :=
  let locs := zipWith3 (fun x y z => (⟨x, y, z⟩ : Vec3 ℚ)) xs ys zs
  if locs.length > MaxLocations then
    Except.error (PyError.httpError 400 maxLocationsDetail)
  else
    (query_points fetch info n5 downsample locs).map fun d => d.transpose

/-- The `transform_values_binary` endpoint
(`POST /transform/dataset/{dataset}/s/{scale}/values_binary/format/{format}`),
after the raw body has been decoded into the `[n,3]` point array: the
`MaxLocations` guard, then `map_points`, then only `dx` and `dy` are
emitted. -/
def transform_values_binary (fetch : Fetch) (info : DatasourceInfo)
    (n5 : Datastore) (downsample : Vec3 ℚ) (locs : List (Vec3 ℚ)) :
    Except PyError (List (Value × Value)) :=
  if locs.length > MaxLocations then
    Except.error (PyError.httpError 400 maxLocationsDetail)
  else
    (map_points fetch info n5 downsample locs).map fun t =>
      t.map fun r => (r.dx, r.dy)

/-- The `query_values_binary` endpoint
(`POST /query/dataset/{dataset}/s/{scale}/values_binary/format/{format}`),
after the raw body has been decoded into the `[n,3]` point array: the
`MaxLocations` guard, then `query_points` verbatim. -/
def query_values_binary (fetch : Fetch) (info : DatasourceInfo) (n5 : Datastore)
    (downsample : Vec3 ℚ) (locs : List (Vec3 ℚ)) :
    Except PyError (List (List Value)) :=
  if locs.length > MaxLocations then
    Except.error (PyError.httpError 400 maxLocationsDetail)
  else
    query_points fetch info n5 downsample locs

/-! ## Specification-side definitions and test fixtures -/

/-- The store's native chunk shape, as the specification's Chunk Batcher
contract words it: the chunk geometry the opened store reports — for a
`neuroglancer_precomputed` store its `scale_metadata.chunk_size`, for a
zarr store the first three axes of its `metadata.chunks`.  Stated
separately from `blocksize` so that the multiplier law can compare the
code's block size against it. -/
def specNativeChunkShape (info : DatasourceInfo) (n5 : Datastore) : List ℕ :=
  if info.type = "neuroglancer_precomputed" then
    n5.scaleMetadataChunkSize
  else
    n5.metadataChunks.take 3

/-- Fixture: a fetch stub that returns one displacement row
`[40, -20]` (int16 field units). -/
def fetchW : Fetch := fun _ _ _ _ => [[Value.num 40, Value.num (-20)]]

/-- Fixture: a fetch stub whose (poison) answer must never reach the
caller on the short-circuit paths. -/
def fetchPoison : Fetch := fun _ _ _ _ => [[Value.num 12345]]

/-- Fixture: a zarr displacement-field dataset descriptor like
`config.DATASOURCES["test"]`. -/
def infoZarr : DatasourceInfo :=
  { type := "zarr", scales := [7], voxel_size := ⟨4, 4, 40⟩,
    services := ["transform"], dtype := DType.float32, width := 2 }

/-- Fixture: a dataset descriptor with an unrecognized storage type. -/
def infoN5 : DatasourceInfo :=
  { type := "n5", scales := [0], voxel_size := ⟨4, 4, 40⟩,
    services := ["transform"], dtype := DType.float32, width := 2 }

/-- Fixture: a store whose domain is `[0, 100000]` on each axis. -/
def n5W : Datastore :=
  { scaleMetadataChunkSize := [64, 64, 64], metadataChunks := [64, 64, 64, 1],
    inclusiveMin := ⟨0, 0, 0⟩, inclusiveMax := ⟨100000, 100000, 100000⟩ }

/-! ## Helper lemmas -/

/-- The column-wise coordinate mapping equals the row-wise map. -/
lemma gridCoords_eq_map (locs : List (Vec3 ℚ)) (ds : Vec3 ℚ) :
    gridCoords locs ds =
      locs.map fun p => ⟨npFloorDiv p.x ds.x, npFloorDiv p.y ds.y, npFloorDiv p.z ds.z⟩ := by
  induction locs with
  | nil => rfl
  | cons p ps ih =>
    simp only [gridCoords, List.map_cons, zipWith3] at ih ⊢
    exact congrArg _ ih

/-- Row `i` of the assembled transform result is the decode of field
row `i` at input point `i`. -/
lemma map_points_results_getD (field : List (List Value)) (locs : List (Vec3 ℚ))
    (i : ℕ) (hi : i < locs.length) :
    (map_points_results field locs).getD i default =
      decodeRow (field.getD i []) (locs.getD i ⟨0, 0, 0⟩) := by
  unfold map_points_results
  rw [List.getD_eq_getElem _ _ (by simpa using hi), List.getElem_map, List.getElem_range]

/-- Mapping a function over an `Except` cannot introduce an error. -/
lemma except_map_eq_error {α β : Type} (r : Except PyError α) (f : α → β)
    (e : PyError) : r.map f = Except.error e ↔ r = Except.error e := by
  cases r <;> simp [Except.map]

/-- The only exception `query_points` itself raises is the
`UnboundLocalError`; it never raises an `HTTPException`. -/
lemma query_points_ne_http (fetch : Fetch) (info : DatasourceInfo) (n5 : Datastore)
    (ds : Vec3 ℚ) (locs : List (Vec3 ℚ)) (c : ℕ) (s : String) :
    query_points fetch info n5 ds locs ≠ Except.error (PyError.httpError c s) := by
  unfold query_points
  split
  · simp
  · split <;> simp

/-- Function `map_points` never raises the `MaxLocations` rejection. -/
lemma map_points_ne_maxloc (fetch : Fetch) (info : DatasourceInfo) (n5 : Datastore)
    (ds : Vec3 ℚ) (locs : List (Vec3 ℚ)) :
    map_points fetch info n5 ds locs ≠
      Except.error (PyError.httpError 400 maxLocationsDetail) := by
  unfold map_points
  split
  · simp only [ne_eq, Except.error.injEq, PyError.httpError.injEq, not_and]
    intro _
    decide
  · intro h
    exact query_points_ne_http fetch info n5 ds locs 400 maxLocationsDetail
      ((except_map_eq_error _ _ _).mp h)

/-- An endpoint of the shape `guard; body` rejects with the
`MaxLocations` error exactly when the guard fires, provided the body
cannot produce that same error. -/
lemma guard_iff {β : Type} (n : ℕ) (body : Except PyError β)
    (hbody : body ≠ Except.error (PyError.httpError 400 maxLocationsDetail)) :
    ((if n > MaxLocations then
        Except.error (PyError.httpError 400 maxLocationsDetail)
      else body) =
        Except.error (PyError.httpError 400 maxLocationsDetail)) ↔
      n > MaxLocations := by
  by_cases h : n > MaxLocations
  · simp [h]
  · simp [h, hbody]

/-- Mapping `fun c => c * CHUNK_MULTIPLIER` over a list multiplies each
`getD` entry (the default `0` absorbs the multiplier). -/
lemma getD_map_mul (l : List ℕ) (i : ℕ) :
    (l.map fun c => c * CHUNK_MULTIPLIER).getD i 0 = l.getD i 0 * CHUNK_MULTIPLIER := by
  rcases Nat.lt_or_ge i l.length with hi | hi
  · rw [List.getD_eq_getElem _ _ (by simpa using hi), List.getElem_map,
      List.getD_eq_getElem _ _ hi]
  · rw [List.getD_eq_default _ _ (by simpa using hi), List.getD_eq_default _ _ hi,
      Nat.zero_mul]

/-! ## The claims -/

/-- C3: for every input point and every axis, the coordinate mapper
computes the grid coordinate as the floor division of that axis's
full-resolution coordinate by that axis's downsample factor
(`query_points[:, k] = locs[:, k] // downsample[k]`). -/
theorem gridCoords_floor_div (locs : List (Vec3 ℚ)) (ds : Vec3 ℚ)
    (i : ℕ) (hi : i < locs.length) :
    (gridCoords locs ds).getD i ⟨0, 0, 0⟩ =
      ⟨((⌊(locs.getD i ⟨0, 0, 0⟩).x / ds.x⌋ : ℤ) : ℚ),
       ((⌊(locs.getD i ⟨0, 0, 0⟩).y / ds.y⌋ : ℤ) : ℚ),
       ((⌊(locs.getD i ⟨0, 0, 0⟩).z / ds.z⌋ : ℤ) : ℚ)⟩ := by
  rw [gridCoords_eq_map]
  rw [List.getD_eq_getElem _ _ (by simpa using hi), List.getElem_map,
    List.getD_eq_getElem _ _ hi]
  rfl

/-- Witness for C3: the point `(100, 200, 5)` at downsample factors
`(4, 4, 40)` maps to grid coordinate `(25, 50, 0)`. -/
theorem gridCoords_floor_div_w :
    (gridCoords [⟨100, 200, 5⟩] ⟨4, 4, 40⟩).getD 0 ⟨0, 0, 0⟩ = (⟨25, 50, 0⟩ : Vec3 ℚ) := by
  rw [gridCoords_floor_div [⟨100, 200, 5⟩] ⟨4, 4, 40⟩ 0 (by norm_num)]
  norm_num [List.getD]

/-- C4: a point's validity flag is true (its `bad_points` entry is
false) iff its grid coordinate lies within `[domain.min, domain.max]`
on every axis, inclusive at both ends; it is marked invalid exactly
when some axis falls strictly outside those bounds. -/
theorem badPoint_validity (n5 : Datastore) (q : Vec3 ℚ) :
    (badPoint n5 q = false ↔
      (((n5.inclusiveMin.x : ℚ) ≤ q.x ∧ q.x ≤ (n5.inclusiveMax.x : ℚ)) ∧
       ((n5.inclusiveMin.y : ℚ) ≤ q.y ∧ q.y ≤ (n5.inclusiveMax.y : ℚ)) ∧
       ((n5.inclusiveMin.z : ℚ) ≤ q.z ∧ q.z ≤ (n5.inclusiveMax.z : ℚ)))) ∧
    (badPoint n5 q = true ↔
      ((q.x < (n5.inclusiveMin.x : ℚ) ∨ (n5.inclusiveMax.x : ℚ) < q.x) ∨
       (q.y < (n5.inclusiveMin.y : ℚ) ∨ (n5.inclusiveMax.y : ℚ) < q.y) ∨
       (q.z < (n5.inclusiveMin.z : ℚ) ∨ (n5.inclusiveMax.z : ℚ) < q.z))) := by
  constructor
  · simp only [badPoint, Bool.or_eq_false_iff, decide_eq_false_iff_not, not_lt, gt_iff_lt]
    tauto
  · simp only [badPoint, Bool.or_eq_true, decide_eq_true_eq, gt_iff_lt]
    tauto

/-- C5: the sentinel filled into invalid or unreadable result slots is
`0` when the dataset's element datatype is an integer type and NaN when
it is a floating-point type. -/
theorem error_value_by_dtype (d : DType) :
    (error_value d = Value.num 0 ↔ d.isInteger = true) ∧
    (error_value d = Value.nan ↔ d.isInteger = false) := by
  cases d <;> simp [error_value, DType.isInteger]

/-- C2: when every point of the batch is invalid, `query_points`
returns the `locs.length × info.width` all-sentinel buffer without
invoking the fetch path — the result is this buffer for **every**
fetch function, so no store read can have been issued. -/
theorem query_points_all_invalid (fetch : Fetch) (info : DatasourceInfo)
    (n5 : Datastore) (ds : Vec3 ℚ) (locs : List (Vec3 ℚ))
    (hbad : ((gridCoords locs ds).map (badPoint n5)).all (fun b => b) = true) :
    query_points fetch info n5 ds locs =
      Except.ok (List.replicate locs.length
        (List.replicate info.width (error_value info.dtype))) := by
  unfold query_points
  simp only [hbad, if_true]

/-- Witness for C2: the out-of-domain point `(-5, 3, 3)` yields the
all-sentinel `1 × 2` buffer even under a poison fetch stub. -/
theorem query_points_all_invalid_w :
    query_points fetchPoison infoZarr n5W ⟨1, 1, 1⟩ [⟨-5, 3, 3⟩] =
      Except.ok [[Value.nan, Value.nan]] := by
  have h := query_points_all_invalid fetchPoison infoZarr n5W ⟨1, 1, 1⟩ [⟨-5, 3, 3⟩]
    (by norm_num [gridCoords, zipWith3, npFloorDiv, badPoint, n5W])
  rw [h]
  norm_num [infoZarr, error_value, DType.isInteger, List.replicate]

/-- C10: for a dataset whose storage type is none of
`neuroglancer_precomputed`, `zarr`, `zarr-nested`, the `blocksize`
local is never assigned, so `query_points` raises `UnboundLocalError`
exactly when the fetch path is reached (some point valid); when every
point is out of bounds the short-circuit branch never reads `blocksize`
and the call succeeds with the all-sentinel buffer. -/
theorem query_points_unassigned_blocksize (fetch : Fetch) (info : DatasourceInfo)
    (n5 : Datastore) (ds : Vec3 ℚ) (locs : List (Vec3 ℚ))
    (hty : info.type ≠ "neuroglancer_precomputed" ∧ info.type ≠ "zarr" ∧
      info.type ≠ "zarr-nested") :
    query_points fetch info n5 ds locs =
      if ((gridCoords locs ds).map (badPoint n5)).all (fun b => b) then
        Except.ok (List.replicate locs.length
          (List.replicate info.width (error_value info.dtype)))
      else
        Except.error (PyError.unboundLocal "blocksize") := by
  have hb : blocksize info n5 = none := by
    unfold blocksize
    rw [if_neg hty.1, if_neg]
    rintro (h | h)
    · exact hty.2.1 h
    · exact hty.2.2 h
  unfold query_points
  rw [hb]

/-- Witness for C10: with storage type `n5` and one in-domain point the
call raises `UnboundLocalError` for `blocksize`. -/
theorem query_points_unassigned_blocksize_w :
    query_points fetchPoison infoN5 n5W ⟨1, 1, 1⟩ [⟨100, 200, 5⟩] =
      Except.error (PyError.unboundLocal "blocksize") := by
  have h := query_points_unassigned_blocksize fetchPoison infoN5 n5W ⟨1, 1, 1⟩
    [⟨100, 200, 5⟩] (by refine ⟨?_, ?_, ?_⟩ <;> decide)
  rw [h]
  norm_num [gridCoords, zipWith3, npFloorDiv, badPoint, n5W]

/-- C1: the transform decode of `map_points` — for field row
`(field0, field1)` at input point `p`, the output row is
`dx = field1 / 4.0`, `dy = field0 / 4.0`, `new_x = p.x + dx`,
`new_y = p.y + dy`, `new_z = p.z`. -/
theorem map_points_displacement_decode (fetch : Fetch) (info : DatasourceInfo)
    (n5 : Datastore) (ds : Vec3 ℚ) (locs : List (Vec3 ℚ))
    (field : List (List Value)) (i : ℕ) (f0 f1 : ℚ)
    (hserv : "transform" ∈ info.services)
    (hq : query_points fetch info n5 ds locs = Except.ok field)
    (hi : i < locs.length)
    (hrow : field.getD i [] = [Value.num f0, Value.num f1]) :
    map_points fetch info n5 ds locs = Except.ok (map_points_results field locs) ∧
    (map_points_results field locs).getD i default =
      { x := Value.num ((locs.getD i ⟨0, 0, 0⟩).x + f1 / 4)
        y := Value.num ((locs.getD i ⟨0, 0, 0⟩).y + f0 / 4)
        z := Value.num (locs.getD i ⟨0, 0, 0⟩).z
        dx := Value.num (f1 / 4)
        dy := Value.num (f0 / 4) } := by
  constructor
  · unfold map_points
    rw [if_neg (not_not_intro hserv), hq]
    rfl
  · rw [map_points_results_getD field locs i hi, hrow]
    simp [decodeRow, Value.div4, Value.add, List.getD]

/-- Witness for C1: field row `[40, -20]` at point `(100, 200, 5)`
decodes to `dy = 10`, `dx = -5` and transformed point `(95, 210, 5)`. -/
theorem map_points_displacement_decode_w :
    map_points fetchW infoZarr n5W ⟨1, 1, 1⟩ [⟨100, 200, 5⟩] =
      Except.ok [⟨Value.num 95, Value.num 210, Value.num 5,
        Value.num (-5), Value.num 10⟩] := by
  have h := map_points_displacement_decode fetchW infoZarr n5W ⟨1, 1, 1⟩
    [⟨100, 200, 5⟩] [[Value.num 40, Value.num (-20)]] 0 40 (-20)
    (by norm_num [infoZarr])
    (by norm_num [query_points, gridCoords, zipWith3, npFloorDiv, badPoint,
      error_value, blocksize, fetchW, infoZarr, n5W, DType.isInteger])
    (by norm_num)
    (by norm_num [List.getD])
  rw [h.1]
  norm_num [map_points_results, decodeRow, Value.div4, Value.add,
    List.range_succ, List.getD]

/-- C6: for every dataset and every transform request — any fetch
function, store, downsample vector and point batch — `map_points` fails
with the `UnsupportedOperation` client error (HTTP 400,
transform-services detail) if and only if the dataset's descriptor does
not list `transform` among its services.  The failing direction holds
for every fetch function and store, so the check precedes any point
query or store access; conversely, when `transform` is listed no
request at all can fail with this error. -/
theorem map_points_unsupported_operation (fetch : Fetch) (info : DatasourceInfo)
    (n5 : Datastore) (ds : Vec3 ℚ) (locs : List (Vec3 ℚ)) :
    map_points fetch info n5 ds locs =
        Except.error (PyError.httpError 400 transformDetail) ↔
      "transform" ∉ info.services := by
  constructor
  · intro h
    by_contra hmem
    unfold map_points at h
    rw [if_neg (not_not_intro hmem)] at h
    exact query_points_ne_http fetch info n5 ds locs 400 transformDetail
      ((except_map_eq_error _ _ _).mp h)
  · intro h
    unfold map_points
    rw [if_pos h]

/-- C7: every lookup and transform endpoint rejects a request with the
`MaxLocations` client error exactly when the number of input points
exceeds `config.MaxLocations`; at or below the bound that rejection
cannot occur (the engine produces no error with that detail). -/
theorem endpoints_reject_too_many (fetch : Fetch) (info : DatasourceInfo)
    (n5 : Datastore) (ds : Vec3 ℚ) (locs : List (Vec3 ℚ)) (xs ys zs : List ℚ) :
    ((transform_values fetch info n5 ds locs =
        Except.error (PyError.httpError 400 maxLocationsDetail)) ↔
      locs.length > MaxLocations) ∧
    ((query_values_cloud_volume_server fetch info n5 ds locs =
        Except.error (PyError.httpError 400 maxLocationsDetail)) ↔
      locs.length > MaxLocations) ∧
    ((transform_values_binary fetch info n5 ds locs =
        Except.error (PyError.httpError 400 maxLocationsDetail)) ↔
      locs.length > MaxLocations) ∧
    ((query_values_binary fetch info n5 ds locs =
        Except.error (PyError.httpError 400 maxLocationsDetail)) ↔
      locs.length > MaxLocations) ∧
    ((query_values_array fetch info n5 ds xs ys zs =
        Except.error (PyError.httpError 400 maxLocationsDetail)) ↔
      (zipWith3 (fun x y z => (⟨x, y, z⟩ : Vec3 ℚ)) xs ys zs).length >
        MaxLocations) := by
  refine ⟨?_, ?_, ?_, ?_, ?_⟩
  · exact guard_iff _ _ (map_points_ne_maxloc fetch info n5 ds locs)
  · exact guard_iff _ _ fun h =>
      query_points_ne_http fetch info n5 ds locs 400 maxLocationsDetail
        ((except_map_eq_error _ _ _).mp h)
  · exact guard_iff _ _ fun h =>
      map_points_ne_maxloc fetch info n5 ds locs
        ((except_map_eq_error _ _ _).mp h)
  · exact guard_iff _ _ (query_points_ne_http fetch info n5 ds locs 400
      maxLocationsDetail)
  · exact guard_iff _ _ fun h =>
      query_points_ne_http fetch info n5 ds
        (zipWith3 (fun x y z => (⟨x, y, z⟩ : Vec3 ℚ)) xs ys zs)
        400 maxLocationsDetail ((except_map_eq_error _ _ _).mp h)

/-- C8: the transform output has exactly `locs.shape[0]` rows and row
`i` is computed from field row `i` and input point `i` — order is
preserved end to end. -/
theorem map_points_order_preserving (fetch : Fetch) (info : DatasourceInfo)
    (n5 : Datastore) (ds : Vec3 ℚ) (locs : List (Vec3 ℚ))
    (field : List (List Value))
    (hserv : "transform" ∈ info.services)
    (hq : query_points fetch info n5 ds locs = Except.ok field) :
    map_points fetch info n5 ds locs = Except.ok (map_points_results field locs) ∧
    (map_points_results field locs).length = locs.length ∧
    ∀ i : ℕ, i < locs.length →
      (map_points_results field locs).getD i default =
        decodeRow (field.getD i []) (locs.getD i ⟨0, 0, 0⟩) := by
  refine ⟨?_, ?_, ?_⟩
  · unfold map_points
    rw [if_neg (not_not_intro hserv), hq]
    rfl
  · simp [map_points_results]
  · intro i hi
    exact map_points_results_getD field locs i hi

/-- Witness for C8: a one-point batch produces a one-row result. -/
theorem map_points_order_preserving_w :
    map_points fetchW infoZarr n5W ⟨1, 1, 1⟩ [⟨100, 200, 5⟩] =
      Except.ok (map_points_results [[Value.num 40, Value.num (-20)]]
        [⟨100, 200, 5⟩]) ∧
    (map_points_results [[Value.num 40, Value.num (-20)]]
      [⟨100, 200, 5⟩]).length = 1 := by
  have h := map_points_order_preserving fetchW infoZarr n5W ⟨1, 1, 1⟩
    [⟨100, 200, 5⟩] [[Value.num 40, Value.num (-20)]]
    (by norm_num [infoZarr])
    (by norm_num [query_points, gridCoords, zipWith3, npFloorDiv, badPoint,
      error_value, blocksize, fetchW, infoZarr, n5W, DType.isInteger])
  exact ⟨h.1, h.2.1⟩

/-- C9: for every recognized storage kind the effective fetch block size
exists and is, axis by axis, the store's native chunk shape multiplied
by the configured `CHUNK_MULTIPLIER`. -/
theorem blocksize_scales_native_chunks (info : DatasourceInfo) (n5 : Datastore)
    (hrec : info.type = "neuroglancer_precomputed" ∨ info.type = "zarr" ∨
      info.type = "zarr-nested") :
    ∃ bs : List ℕ, blocksize info n5 = some bs ∧
      bs.length = (specNativeChunkShape info n5).length ∧
      ∀ i : ℕ, bs.getD i 0 = (specNativeChunkShape info n5).getD i 0 *
        CHUNK_MULTIPLIER := by
  have hchunk : blocksize info n5 =
      some ((specNativeChunkShape info n5).map fun c => c * CHUNK_MULTIPLIER) := by
    rcases hrec with h | h | h <;> simp [blocksize, specNativeChunkShape, h]
  refine ⟨_, hchunk, List.length_map _ _, fun i => getD_map_mul _ i⟩

/-- Witness for C9: for the zarr fixture the block size is the native
chunk shape `[64, 64, 64]` times the multiplier. -/
theorem blocksize_scales_native_chunks_w :
    ∃ bs : List ℕ, blocksize infoZarr n5W = some bs ∧
      bs.length = (specNativeChunkShape infoZarr n5W).length ∧
      ∀ i : ℕ, bs.getD i 0 = (specNativeChunkShape infoZarr n5W).getD i 0 *
        CHUNK_MULTIPLIER :=
  blocksize_scales_native_chunks infoZarr n5W (Or.inr (Or.inl rfl))



end TransformService
